import Mathlib

/-!
# Verification of `lab.ipynb` (SageMaker data-quality monitoring lab)

A shallow embedding of the notebook `src/lab.ipynb`.  The notebook is a
linear script; every cell is embedded as a pure definition, with the
external managed services (S3, the SageMaker runtime endpoint, the
SageMaker control plane) modelled as oracles returning `Except`-values,
since the notebook itself contains no error handling.

Floating-point cell values are modelled by the type `Val`: an exact
number or the distinguished `nan` value.  The claims verified here are
about which cells hold which values and which external calls are made,
never about rounding or fractional magnitudes, so an exact integer
carrier is faithful for them: the only arithmetic the notebook performs
on cell values is multiplication by 10 and string rendering, both of
which the model performs exactly.
-/

set_option autoImplicit false

namespace Lab

/-- A cell value of the tabular data: a numeric value (modelled as an
exact integer, see the module comment) or the floating-point `nan` that
the defect-injection cell writes. -/
inductive Val where
  | num (q : ℤ)
  | nan
  deriving DecidableEq

/-- Python's `str` applied to a cell value, as used by
`",".join(map(str, row))` in the notebook.  The exact rendering of a
number is irrelevant to the claims; what matters is that it is a fixed
injective-on-use rendering and that `str(float("nan")) = "nan"`. -/
def valStr : Val → String
  | .num q => toString q
  | .nan => "nan"

/-- Python's `float(x) * 10` (the `*= 10` of the defect-injection cell);
`nan * 10 = nan`. -/
def mult10 : Val → Val
  | .num q => .num (q * 10)
  | .nan => .nan

/-- A row of a pandas DataFrame, as the list of its cell values in column
order. -/
abbrev Row := List Val

/-- A pandas DataFrame with the default `RangeIndex`: a list of column
names and a list of rows (row label = position). -/
structure DataFrame where
  colNames : List String
  rows : List Row
  deriving DecidableEq

/-- Pandas `pd.DataFrame(X, columns=cols)`. -/
def pdDataFrame (X : List Row) (cols : List String) : DataFrame :=
  ⟨cols, X⟩

/-- Pandas `df[name] = vals` for a fresh column `name`: pandas appends the
column on the right, pairing values with rows positionally. -/
def addColumn (df : DataFrame) (name : String) (vals : List Val) : DataFrame :=
  ⟨df.colNames ++ [name], List.zipWith (fun r v => r ++ [v]) df.rows vals⟩

/-- Pandas `df.drop(name, axis=1)`: removes the named column. -/
def dropColumn (df : DataFrame) (name : String) : DataFrame :=
  let j := df.colNames.indexOf name
  ⟨df.colNames.eraseIdx j, df.rows.map (fun r => r.eraseIdx j)⟩

/-- Pandas `df.to_csv(path, index=False)`: a header line of the column names
followed by one line per row, comma-separated, `str`-rendered. -/
def toCsv (df : DataFrame) : String :=
  String.intercalate "\n"
      (String.intercalate "," df.colNames
        :: df.rows.map (fun r => String.intercalate "," (r.map valStr)))
    ++ "\n"

/-- The cell at row `i`, column `j` (defaulting outside the frame). -/
def cellAt (df : DataFrame) (i j : Nat) : Val :=
  (((df.rows[i]?).getD [])[j]?).getD .nan

/-- The row transformation of `df.loc[idxs, name] = ...`, applied from
row position `i0` on: each row whose position is in `idxs` gets the cell
in column position `j` replaced by `f` of its old value. -/
def setRowsFrom (idxs : List Nat) (j : Nat) (f : Val → Val) : Nat → List Row → List Row
  | _, [] => []
  | i, r :: rest =>
      (if i ∈ idxs then r.set j (f (r.getD j .nan)) else r) :: setRowsFrom idxs j f (i + 1) rest

/-- Pandas `df.loc[idxs, name] = f(df.loc[idxs, name])` — the vectorised `.loc`
assignment to one column at a list of row labels (labels = positions for
the default `RangeIndex`). -/
def locSet (df : DataFrame) (idxs : List Nat) (name : String) (f : Val → Val) : DataFrame :=
  ⟨df.colNames, setRowsFrom idxs (df.colNames.indexOf name) f 0 df.rows⟩

/-- Pandas `df.sample(frac=...)` returns `round(frac * len(df))` rows; this is
the sample size.  (Python's `round` is banker's rounding; it agrees with
`round : ℚ → ℤ` away from halves, and the notebook's instance
`0.1 * 20 = 2` is exact.) -/
def sampleSize (frac : ℚ) (n : Nat) : Nat :=
  (round (frac * (n : ℚ))).toNat

/-- The column names `feature_1 .. feature_10` of cell 8 and cell 15:
`[f"feature_{i}" for i in range(1, 11)]`. -/
def featureCols : List String :=
  (List.range 10).map (fun i => "feature_" ++ toString (i + 1))

/-- The endpoint name defined in cell 6. -/
def endpointName : String := "lab-sagemaker-endpoint"

/-- Python's `str.startswith`, stated on the character lists of the two
strings (this explicit form lets concrete instances compute). -/
def startswith (s pre : String) : Bool :=
  pre.data.isPrefixOf s.data

/-- Cell 6's bucket lookup:
`next((b["Name"] for b in list_buckets() if b["Name"].startswith("lab-sagemaker-")), None)`.
Returns the first bucket name with the prefix, or the default `None`. -/
def pickBucket (names : List String) : Option String :=
  names.find? (fun n => startswith n "lab-sagemaker-")

/-- Python's rendering of an `Optional[str]` inside an f-string:
`f"{None}"` is `"None"`. -/
def pyStr : Option String → String
  | some s => s
  | none => "None"

/-- Cell 8: `df_normal = pd.DataFrame(X_normal, columns=[...]);
df_normal["target"] = y_normal`. -/
def cell8Df (Xnormal : List Row) (ynormal : List Val) : DataFrame :=
  addColumn (pdDataFrame Xnormal featureCols) "target" ynormal

/-- Cell 15: `df_drifted = pd.DataFrame(X_normal, columns=[...]);
df_drifted["target"] = y_normal`.  The cell also computes
`X_drifted, y_drifted` with `make_classification(random_state=99)`, but
the DataFrame it builds uses `X_normal` and `y_normal`; the drifted
samples are taken as arguments here to record that they are not used. -/
def cell15Df (Xnormal : List Row) (ynormal : List Val)
    (Xdrifted : List Row) (ydrifted : List Val) : DataFrame :=
  addColumn (pdDataFrame Xnormal featureCols) "target" ynormal

/-- Cell 19, the defect injection:
`df.loc[df.sample(frac=0.1).index, "feature_1"] = np.nan` then
`df.loc[df.sample(frac=0.1).index, "feature_2"] *= 10`, with the two
(random) sampled index sets passed as arguments `s1` and `s2`. -/
def cell19 (df : DataFrame) (s1 s2 : List Nat) : DataFrame :=
  locSet (locSet df s1 "feature_1" (fun _ => .nan)) s2 "feature_2" mult10

/-- Python `",".join(map(str, row))` — the request payload built for one row. -/
def payloadOf (r : Row) : String :=
  String.intercalate "," (r.map valStr)

/-- An observable step of an inference loop (cells 12 and 21): a
synchronous `invoke_endpoint` request carrying a payload, or a
`print(float(result))` of the scalar score parsed from a response
body. -/
inductive Event where
  | invoke (payload : String)
  | printed (score : ℚ)
  deriving DecidableEq

/-- The keyword arguments of `monitor.create_monitoring_schedule(...)`
in cell 33, with the source's names. -/
structure ScheduleArgs where
  endpoint_input : String
  output_s3_uri : String
  statistics : String
  constraints : String
  schedule_cron_expression : String
  enable_cloudwatch_metrics : Bool
  deriving DecidableEq

/-- An external call made by the notebook, in the vocabulary of the AWS
clients it uses.  `s3PutObject` is included so that its absence from the
notebook's trace can be stated. -/
inductive ExtCall where
  | listBuckets
  | invokeEndpoint (endpointNm contentType body : String)
  | describeEndpoint (endpointNm : String)
  | s3GetObject (bucket key : String)
  | s3PutObject (bucket key : String)
  | createMonitoringSchedule (args : ScheduleArgs)
  deriving DecidableEq

/-- The external managed services the notebook talks to.  Each call may
fail (`Except.error`), modelling a client-library fault; the notebook
contains no `try`/`except`, so every bind below propagates a failure.
The endpoint's response body is modelled by the scalar score that
`float(result)` parses it to. -/
structure Oracles where
  listBuckets : Except String (List String)
  invokeEndpoint : String → Except String ℚ
  describeEndpoint : String → Except String String
  s3GetObject : String → String → Except String String
  createSchedule : ScheduleArgs → Except String Unit

/-- The inference loop of cells 12 and 21:
`for row in inference_data: payload = ",".join(map(str, row));`
`response = invoke_endpoint(...); print(float(response.body))`.
One synchronous invocation per row, in row order, the print happening
before the next row is sent; any endpoint fault aborts the loop (and the
notebook). -/
def sendRowsE (invoke : String → Except String ℚ) : List Row → Except String (List Event)
  | [] => .ok []
  | r :: rest => do
      let score ← invoke (payloadOf r)
      let evs ← sendRowsE invoke rest
      .ok (.invoke (payloadOf r) :: .printed score :: evs)

/-- Modelled from the SageMaker SDK (not part of this repository):
`CronExpressionGenerator.daily()` returns the daily cron expression
`cron(0 0 ? * * *)` (every day at hour 0). -/
def cronDaily : String := "cron(0 0 ? * * *)"

/-- Cell 27: `baseline_statistics = f"s3://{bucket}/baseline_output/statistics.json"`. -/
def baselineStatisticsUri (bucket : String) : String :=
  "s3://" ++ bucket ++ "/baseline_output/statistics.json"

/-- Cell 27: `baseline_constraints = f"s3://{bucket}/baseline_output/constraints.json"`. -/
def baselineConstraintsUri (bucket : String) : String :=
  "s3://" ++ bucket ++ "/baseline_output/constraints.json"

/-- The argument record that cell 33 passes to
`monitor.create_monitoring_schedule`. -/
def cell33Args (bucket : String) : ScheduleArgs where
  endpoint_input := endpointName
  output_s3_uri := "s3://" ++ bucket ++ "/monitoring_output"
  statistics := baselineStatisticsUri bucket
  constraints := baselineConstraintsUri bucket
  schedule_cron_expression := cronDaily
  enable_cloudwatch_metrics := true

/-- The names of the keyword arguments that cell 33 passes to
`create_monitoring_schedule`, in source order. -/
def cell33KwargNames : List String :=
  ["endpoint_input", "output_s3_uri", "statistics", "constraints",
   "schedule_cron_expression", "enable_cloudwatch_metrics"]

/-- The keyword arguments that would carry exactly the four inputs the
spec names for the schedule call (the two baseline locations being two
arguments). -/
def specNamedKwargs : List String :=
  ["endpoint_input", "output_s3_uri", "statistics", "constraints",
   "schedule_cron_expression"]

/-- Everything a complete run of the notebook produces or observes. -/
structure RunResult where
  /-- Cell 6's `bucket` variable. -/
  bucket : Option String
  /-- The DataFrame `df_normal` as created by cell 8 (never reassigned). -/
  dfNormal : DataFrame
  /-- The DataFrame `df_drifted` as created by cell 15, before the defect injection. -/
  dfDriftedCreated : DataFrame
  /-- The DataFrame `df_drifted` after cell 19's in-place defect injection. -/
  dfDriftedFinal : DataFrame
  /-- The invoke/print events of cell 12's loop over `df_normal`. -/
  normalEvents : List Event
  /-- The invoke/print events of cell 21's loop over `df_drifted`. -/
  driftedEvents : List Event
  /-- The local CSV files written, as `(filename, contents)` in write
  order (cell 8 then cell 15). -/
  fileWrites : List (String × String)
  /-- Bodies shown by `IPython.display.JSON` (cells 25, 30 and 31):
  the endpoint description, then the statistics and constraints
  contents. -/
  displayed : List String
  /-- All external calls, in program order. -/
  trace : List ExtCall
  /-- The arguments of the single schedule-creation call. -/
  schedArgs : ScheduleArgs
  deriving DecidableEq

/-- The `invoke_endpoint` calls underlying a loop's events. -/
def invokeCallsOf (evs : List Event) : List ExtCall :=
  evs.filterMap (fun e => match e with
    | .invoke p => some (.invokeEndpoint endpointName "text/csv" p)
    | .printed _ => none)

/-- The whole notebook, cells in order, as a computation over the
oracles.  The outputs of the two `make_classification` calls (cell 8's
`X_normal, y_normal` with `random_state=42` and cell 15's
`X_drifted, y_drifted` with `random_state=99`) and of the two
`df_drifted.sample(frac=0.1).index` draws of cell 19 are parameters,
since they come from library randomness.  A failing oracle call makes
the whole run fail: the notebook has no handler. -/
def runNotebook (o : Oracles) (Xnormal : List Row) (ynormal : List Val)
    (Xdrifted : List Row) (ydrifted : List Val) (s1 s2 : List Nat) :
    Except String RunResult := do
  let names ← o.listBuckets
  let bucket := pickBucket names
  let b := pyStr bucket
  let dfNormal := cell8Df Xnormal ynormal
  let csvNormal := toCsv dfNormal
  let evNormal ← sendRowsE o.invokeEndpoint (dropColumn dfNormal "target").rows
  let dfDriftedCreated := cell15Df Xnormal ynormal Xdrifted ydrifted
  let csvDrifted := toCsv dfDriftedCreated
  let dfDriftedFinal := cell19 dfDriftedCreated s1 s2
  let evDrifted ← sendRowsE o.invokeEndpoint (dropColumn dfDriftedFinal "target").rows
  let description ← o.describeEndpoint endpointName
  let statisticsContent ← o.s3GetObject b "baseline_output/statistics.json"
  let constraintsContent ← o.s3GetObject b "baseline_output/constraints.json"
  let args := cell33Args b
  let _ ← o.createSchedule args
  .ok
    { bucket := bucket
      dfNormal := dfNormal
      dfDriftedCreated := dfDriftedCreated
      dfDriftedFinal := dfDriftedFinal
      normalEvents := evNormal
      driftedEvents := evDrifted
      fileWrites := [("synthetic_normal_data.csv", csvNormal),
                     ("synthetic_drifted_data.csv", csvDrifted)]
      displayed := [description, statisticsContent, constraintsContent]
      trace := ExtCall.listBuckets
                 :: (invokeCallsOf evNormal ++ invokeCallsOf evDrifted
                 ++ [ExtCall.describeEndpoint endpointName,
                     ExtCall.s3GetObject b "baseline_output/statistics.json",
                     ExtCall.s3GetObject b "baseline_output/constraints.json",
                     ExtCall.createMonitoringSchedule args])
      schedArgs := args }

/-- Oracles on which every call succeeds, built from total functions:
the environment of a normal run of the notebook. -/
def pureOracles (names : List String) (score : String → ℚ) (description : String)
    (objectBody : String → String → String) : Oracles where
  listBuckets := .ok names
  invokeEndpoint := fun p => .ok (score p)
  describeEndpoint := fun _ => .ok description
  s3GetObject := fun b k => .ok (objectBody b k)
  createSchedule := fun _ => .ok ()

/-- The event list a loop produces when the endpoint answers every
request: for each row in order, its invocation followed by the print of
its score. -/
def sendEvents (score : String → ℚ) (rows : List Row) : List Event :=
  rows.flatMap (fun r => [.invoke (payloadOf r), .printed (score (payloadOf r))])

/-- The result of a run in which every external call succeeds. -/
def pureRun (names : List String) (score : String → ℚ) (description : String)
    (objectBody : String → String → String) (Xnormal : List Row) (ynormal : List Val)
    (Xdrifted : List Row) (ydrifted : List Val) (s1 s2 : List Nat) : RunResult :=
  let b := pyStr (pickBucket names)
  let dfNormal := cell8Df Xnormal ynormal
  let dfDriftedCreated := cell15Df Xnormal ynormal Xdrifted ydrifted
  let dfDriftedFinal := cell19 dfDriftedCreated s1 s2
  let evNormal := sendEvents score (dropColumn dfNormal "target").rows
  let evDrifted := sendEvents score (dropColumn dfDriftedFinal "target").rows
  { bucket := pickBucket names
    dfNormal := dfNormal
    dfDriftedCreated := dfDriftedCreated
    dfDriftedFinal := dfDriftedFinal
    normalEvents := evNormal
    driftedEvents := evDrifted
    fileWrites := [("synthetic_normal_data.csv", toCsv dfNormal),
                   ("synthetic_drifted_data.csv", toCsv dfDriftedCreated)]
    displayed := [description,
                  objectBody b "baseline_output/statistics.json",
                  objectBody b "baseline_output/constraints.json"]
    trace := ExtCall.listBuckets
               :: (invokeCallsOf evNormal ++ invokeCallsOf evDrifted
               ++ [ExtCall.describeEndpoint endpointName,
                   ExtCall.s3GetObject b "baseline_output/statistics.json",
                   ExtCall.s3GetObject b "baseline_output/constraints.json",
                   ExtCall.createMonitoringSchedule (cell33Args b)])
    schedArgs := cell33Args b }

/-- Whether an external call writes to object storage. -/
def isS3Put : ExtCall → Bool
  | .s3PutObject _ _ => true
  | _ => false

/-- Whether an external call is the schedule creation. -/
def isCreateSchedule : ExtCall → Bool
  | .createMonitoringSchedule _ => true
  | _ => false

/-- The payloads of the `invoke` events of a loop, in order. -/
def invokePayloads (evs : List Event) : List String :=
  evs.filterMap (fun e => match e with
    | .invoke p => some p
    | .printed _ => none)

/-- Whether an event list consists of blocks of one invocation
immediately followed by one print: no batching of requests, no second
request before the previous response is printed. -/
def interleaved : List Event → Bool
  | [] => true
  | .invoke _ :: .printed _ :: rest => interleaved rest
  | _ => false

/-- A concrete stand-in for `make_classification`'s normal sample
(`random_state=42`): 20 rows of 10 numeric features. -/
def exXnormal : List Row :=
  (List.range 20).map (fun i => (List.range 10).map (fun j => Val.num (i * 10 + j)))

/-- A concrete stand-in for the normal labels: 20 binary labels. -/
def exYnormal : List Val :=
  (List.range 20).map (fun i => if i % 2 = 0 then Val.num 0 else Val.num 1)

/-- A concrete stand-in for `make_classification`'s drifted sample
(`random_state=99`): 20 rows of 10 features, all different from the
normal sample. -/
def exXdrifted : List Row :=
  (List.range 20).map (fun i => (List.range 10).map (fun j => Val.num (i * 10 + j + 1000)))

/-- A concrete stand-in for the drifted labels. -/
def exYdrifted : List Val :=
  (List.range 20).map (fun i => if i % 2 = 0 then Val.num 1 else Val.num 0)

/-- The concrete `df_drifted` of cell 15 at the example inputs. -/
def exDfDrifted : DataFrame :=
  cell15Df exXnormal exYnormal exXdrifted exYdrifted

/-- A single concrete feature row of width 10. -/
def tinyRow : Row := (List.range 10).map (fun j => Val.num (j + 1))

/-- A one-row concrete feature matrix. -/
def tinyX : List Row := [tinyRow]

/-- A one-element concrete label vector. -/
def tinyY : List Val := [Val.num 0]

/-- A concrete bucket listing containing a matching lab bucket. -/
def wNames : List String := ["lab-sagemaker-123"]

/-- A concrete endpoint behaviour: every payload scores 0. -/
def wScore : String → ℚ := fun _ => 0

/-- A concrete endpoint description body. -/
def wDescr : String := "description"

/-- A concrete object-storage content function. -/
def wObj : String → String → String := fun _ _ => "\x7b\x7d"

theorem sendRowsE_pure (score : String → ℚ) (rows : List Row) :
    sendRowsE (fun p => .ok (score p)) rows = .ok (sendEvents score rows) := by
  induction rows with
  | nil => rfl
  | cons r rest ih =>
      simp only [sendRowsE, ih, sendEvents, List.flatMap_cons]
      rfl

theorem setRowsFrom_length (idxs : List Nat) (j : Nat) (f : Val → Val) :
    ∀ (rows : List Row) (i0 : Nat), (setRowsFrom idxs j f i0 rows).length = rows.length := by
  intro rows
  induction rows with
  | nil => intro i0; rfl
  | cons r rest ih => intro i0; simp [setRowsFrom, ih]

theorem setRowsFrom_getElem? (idxs : List Nat) (j : Nat) (f : Val → Val) :
    ∀ (rows : List Row) (i0 k : Nat),
      (setRowsFrom idxs j f i0 rows)[k]?
        = (rows[k]?).map
            (fun r => if (i0 + k) ∈ idxs then r.set j (f (r.getD j .nan)) else r) := by
  intro rows
  induction rows with
  | nil => intro i0 k; rfl
  | cons r rest ih =>
      intro i0 k
      cases k with
      | zero => simp [setRowsFrom]
      | succ k =>
          simp only [setRowsFrom, List.getElem?_cons_succ]
          rw [ih (i0 + 1) k]
          have h : i0 + 1 + k = i0 + (k + 1) := by omega
          simp only [h]

theorem locSet_colNames (df : DataFrame) (idxs : List Nat) (name : String) (f : Val → Val) :
    (locSet df idxs name f).colNames = df.colNames := rfl

theorem locSet_rows_length (df : DataFrame) (idxs : List Nat) (name : String) (f : Val → Val) :
    (locSet df idxs name f).rows.length = df.rows.length :=
  setRowsFrom_length _ _ _ _ _

theorem cellAt_locSet (df : DataFrame) (idxs : List Nat) (name : String) (f : Val → Val)
    (i j : Nat) :
    cellAt (locSet df idxs name f) i j
      = if i ∈ idxs ∧ j = df.colNames.indexOf name ∧ j < ((df.rows[i]?).getD []).length
        then f (cellAt df i j) else cellAt df i j := by
  unfold cellAt locSet
  rw [setRowsFrom_getElem?]
  cases hrow : df.rows[i]? with
  | none => simp
  | some r =>
      simp only [Option.map_some', Option.getD_some, Nat.zero_add]
      by_cases hmem : i ∈ idxs
      · simp only [hmem, if_true, true_and]
        by_cases hj : j = df.colNames.indexOf name
        · rw [hj, List.getElem?_set]
          simp only [if_pos rfl]
          by_cases hlt : df.colNames.indexOf name < r.length
          · simp [hlt, List.getD_eq_getElem?_getD]
          · rw [List.getElem?_eq_none (by omega)]
            simp [hlt]
        · rw [List.getElem?_set_ne (fun h => hj h.symm)]
          simp [hj]
      · simp [hmem]

theorem locSet_row_length (df : DataFrame) (idxs : List Nat) (name : String) (f : Val → Val)
    (i : Nat) :
    (((locSet df idxs name f).rows[i]?).getD []).length = ((df.rows[i]?).getD []).length := by
  unfold locSet
  rw [setRowsFrom_getElem?]
  cases df.rows[i]? with
  | none => rfl
  | some r =>
      simp only [Option.map_some', Option.getD_some, Nat.zero_add]
      split <;> simp

theorem indexOf_feature1 : (featureCols ++ ["target"]).indexOf "feature_1" = 0 := by rfl

theorem indexOf_feature2 : (featureCols ++ ["target"]).indexOf "feature_2" = 1 := by rfl

/-- Pointwise description of the defect injection: the sampled rows of
`feature_1` become `nan`, the sampled rows of `feature_2` are multiplied
by 10, and every other cell is untouched. -/
theorem cellAt_cell19 (df : DataFrame) (hcols : df.colNames = featureCols ++ ["target"])
    (s1 s2 : List Nat) (i j : Nat) :
    cellAt (cell19 df s1 s2) i j
      = if i ∈ s2 ∧ j = 1 ∧ j < ((df.rows[i]?).getD []).length then mult10 (cellAt df i j)
        else if i ∈ s1 ∧ j = 0 ∧ j < ((df.rows[i]?).getD []).length then .nan
        else cellAt df i j := by
  unfold cell19
  rw [cellAt_locSet, cellAt_locSet, locSet_row_length, locSet_colNames, hcols,
    indexOf_feature1, indexOf_feature2]
  by_cases h2 : i ∈ s2 ∧ j = 1 ∧ j < ((df.rows[i]?).getD []).length
  · have h1 : ¬(i ∈ s1 ∧ j = 0 ∧ j < ((df.rows[i]?).getD []).length) := by
      intro h1
      have hj1 := h2.2.1
      have hj0 := h1.2.1
      omega
    simp [h2, h1]
  · simp [h2]

theorem runNotebook_pure (names : List String) (score : String → ℚ) (description : String)
    (objectBody : String → String → String) (Xnormal : List Row) (ynormal : List Val)
    (Xdrifted : List Row) (ydrifted : List Val) (s1 s2 : List Nat) :
    runNotebook (pureOracles names score description objectBody)
        Xnormal ynormal Xdrifted ydrifted s1 s2
      = .ok (pureRun names score description objectBody
              Xnormal ynormal Xdrifted ydrifted s1 s2) := by
  simp [runNotebook, pureOracles, pureRun, sendRowsE_pure, bind, Except.bind]

theorem indexOf_target : (featureCols ++ ["target"]).indexOf "target" = 10 := by rfl

theorem eraseLast_zipWith (Xn : List Row) : ∀ (yn : List Val),
    (∀ r ∈ Xn, r.length = 10) → Xn.length ≤ yn.length →
    (List.zipWith (fun r v => r ++ [v]) Xn yn).map (fun r => r.eraseIdx 10) = Xn := by
  induction Xn with
  | nil => intro yn hr hlen; simp
  | cons x rest ih =>
      intro yn hr hlen
      cases yn with
      | nil => simp at hlen
      | cons v yrest =>
          simp only [List.zipWith_cons_cons, List.map_cons]
          have hx : x.length = 10 := hr x (by simp)
          rw [List.eraseIdx_append_of_length_le (by omega)]
          have h0 : (10 : Nat) - x.length = 0 := by omega
          rw [h0]
          rw [ih yrest (fun r hmem => hr r (by simp [hmem])) (by simpa using hlen)]
          simp [List.eraseIdx]

theorem dropTarget_rows (Xn : List Row) (yn : List Val)
    (hr : ∀ r ∈ Xn, r.length = 10) (hlen : Xn.length ≤ yn.length) :
    (dropColumn (cell8Df Xn yn) "target").rows = Xn := by
  show (List.zipWith (fun r v => r ++ [v]) Xn yn).map
      (fun r => r.eraseIdx ((featureCols ++ ["target"]).indexOf "target")) = Xn
  rw [indexOf_target]
  exact eraseLast_zipWith Xn yn hr hlen

/-- C1.  The notebook's markdown and the spec say the second dataset is
drawn from a different distribution; the code, however, builds
`df_drifted` from `X_normal, y_normal`, ignoring the freshly generated
`X_drifted, y_drifted`.  At inputs where the drifted sample differs from
the normal sample, the prepared drifted dataset still equals the normal
dataset exactly. -/
theorem c1_drifted_dataframe_built_from_normal_sample :
    cell15Df exXnormal exYnormal exXdrifted exYdrifted = cell8Df exXnormal exYnormal
      ∧ exXdrifted ≠ exXnormal :=
  ⟨rfl, by decide⟩

/-- C3.  The two CSV files have identical contents: `df_drifted` is
built from `X_normal, y_normal`, so at the moment each file is written
it equals `df_normal` row for row, for every possible output of the two
`make_classification` calls. -/
theorem c3_csv_files_identical (names : List String) (score : String → ℚ)
    (description : String) (objectBody : String → String → String)
    (Xn : List Row) (yn : List Val) (Xd : List Row) (yd : List Val) (s1 s2 : List Nat) :
    (runNotebook (pureOracles names score description objectBody) Xn yn Xd yd s1 s2).map
        (fun r => r.fileWrites)
      = .ok [("synthetic_normal_data.csv", toCsv (cell8Df Xn yn)),
             ("synthetic_drifted_data.csv", toCsv (cell8Df Xn yn))]
      ∧ cell15Df Xn yn Xd yd = cell8Df Xn yn := by
  refine ⟨?_, rfl⟩
  rw [runNotebook_pure]
  rfl

/-- C2 counterexample.  `df_drifted` is a DataFrame the notebook
creates, and cell 19's defect injection mutates it afterwards: at a
concrete generated dataset with sampled row sets `{0, 1}` and `{1, 2}`,
the post-injection value differs from the created value. -/
theorem c2_counterexample_df_drifted_mutated :
    cell19 exDfDrifted [0, 1] [1, 2] ≠ exDfDrifted := by decide

/-- C2 as amended.  Each CSV file is written exactly once (the two
writes go to distinct names, and the drifted file is written from the
pre-injection `df_drifted`), and `df_normal` keeps its cell-8 value;
the one exception to the spec's sentence is `df_drifted`, which cell 19
mutates in place — and that mutation touches only the sampled rows of
`feature_1` (set to `nan`) and `feature_2` (multiplied by 10). -/
theorem c2_amended_only_df_drifted_mutated (names : List String) (score : String → ℚ)
    (description : String) (objectBody : String → String → String)
    (Xn : List Row) (yn : List Val) (Xd : List Row) (yd : List Val) (s1 s2 : List Nat) :
    (runNotebook (pureOracles names score description objectBody) Xn yn Xd yd s1 s2).map
        (fun r => (r.fileWrites, r.dfNormal, r.dfDriftedCreated, r.dfDriftedFinal))
      = .ok ([("synthetic_normal_data.csv", toCsv (cell8Df Xn yn)),
              ("synthetic_drifted_data.csv", toCsv (cell15Df Xn yn Xd yd))],
             cell8Df Xn yn, cell15Df Xn yn Xd yd, cell19 (cell15Df Xn yn Xd yd) s1 s2)
      ∧ "synthetic_normal_data.csv" ≠ "synthetic_drifted_data.csv"
      ∧ ∀ i j, cellAt (cell19 (cell15Df Xn yn Xd yd) s1 s2) i j
          = if i ∈ s2 ∧ j = 1 ∧ j < (((cell15Df Xn yn Xd yd).rows[i]?).getD []).length
            then mult10 (cellAt (cell15Df Xn yn Xd yd) i j)
            else if i ∈ s1 ∧ j = 0 ∧ j < (((cell15Df Xn yn Xd yd).rows[i]?).getD []).length
            then Val.nan
            else cellAt (cell15Df Xn yn Xd yd) i j := by
  refine ⟨?_, by decide, fun i j => cellAt_cell19 _ rfl s1 s2 i j⟩
  rw [runNotebook_pure]
  rfl

/-- C4.  Each request body is exactly the comma-separated join of the
`str`-renderings of the row's feature values with the target column
removed, and each response is consumed as the single scalar score that
the endpoint returns for that payload, printed right after. -/
theorem c4_payload_and_response_shape (names : List String) (score : String → ℚ)
    (description : String) (objectBody : String → String → String)
    (Xn : List Row) (yn : List Val) (Xd : List Row) (yd : List Val) (s1 s2 : List Nat)
    (hr : ∀ r ∈ Xn, r.length = 10) (hlen : Xn.length ≤ yn.length) :
    (runNotebook (pureOracles names score description objectBody) Xn yn Xd yd s1 s2).map
        (fun r => (r.normalEvents, r.driftedEvents))
      = .ok (Xn.flatMap (fun x =>
               [Event.invoke (String.intercalate "," (x.map valStr)),
                Event.printed (score (String.intercalate "," (x.map valStr)))]),
             (dropColumn (cell19 (cell15Df Xn yn Xd yd) s1 s2) "target").rows.flatMap (fun x =>
               [Event.invoke (String.intercalate "," (x.map valStr)),
                Event.printed (score (String.intercalate "," (x.map valStr)))])) := by
  rw [runNotebook_pure]
  show Except.ok
      (sendEvents score (dropColumn (cell8Df Xn yn) "target").rows,
       sendEvents score (dropColumn (cell19 (cell15Df Xn yn Xd yd) s1 s2) "target").rows) = _
  rw [dropTarget_rows Xn yn hr hlen]
  rfl

theorem c4_witness :
    (∀ r ∈ tinyX, r.length = 10) ∧ tinyX.length ≤ tinyY.length ∧
    (runNotebook (pureOracles wNames wScore wDescr wObj) tinyX tinyY [] [] [0] []).map
        (fun r => (r.normalEvents, r.driftedEvents))
      = .ok (tinyX.flatMap (fun x =>
               [Event.invoke (String.intercalate "," (x.map valStr)),
                Event.printed (wScore (String.intercalate "," (x.map valStr)))]),
             (dropColumn (cell19 (cell15Df tinyX tinyY [] []) [0] []) "target").rows.flatMap (fun x =>
               [Event.invoke (String.intercalate "," (x.map valStr)),
                Event.printed (wScore (String.intercalate "," (x.map valStr)))])) :=
  ⟨by decide, by decide,
   c4_payload_and_response_shape wNames wScore wDescr wObj tinyX tinyY [] [] [0] []
     (by decide) (by decide)⟩

theorem interleaved_sendEvents (score : String → ℚ) (rows : List Row) :
    interleaved (sendEvents score rows) = true := by
  induction rows with
  | nil => rfl
  | cons r rest ih => simpa [sendEvents, interleaved] using ih

theorem invokePayloads_sendEvents (score : String → ℚ) (rows : List Row) :
    invokePayloads (sendEvents score rows) = rows.map payloadOf := by
  induction rows with
  | nil => rfl
  | cons r rest ih => simpa [sendEvents, invokePayloads] using ih

/-- C5.  In each of the two loops the events form one
invoke-then-print block per row: exactly one synchronous invocation per
row of the prepared dataset, in row order, with the scalar response
printed before the next row is sent — no retry, skip or batching. -/
theorem c5_one_invocation_per_row_in_order (names : List String) (score : String → ℚ)
    (description : String) (objectBody : String → String → String)
    (Xn : List Row) (yn : List Val) (Xd : List Row) (yd : List Val) (s1 s2 : List Nat) :
    (runNotebook (pureOracles names score description objectBody) Xn yn Xd yd s1 s2).map
        (fun r => (interleaved r.normalEvents, invokePayloads r.normalEvents,
                   interleaved r.driftedEvents, invokePayloads r.driftedEvents))
      = .ok (true, (dropColumn (cell8Df Xn yn) "target").rows.map payloadOf,
             true, (dropColumn (cell19 (cell15Df Xn yn Xd yd) s1 s2) "target").rows.map payloadOf) := by
  rw [runNotebook_pure]
  show Except.ok
      (interleaved (sendEvents score (dropColumn (cell8Df Xn yn) "target").rows),
       invokePayloads (sendEvents score (dropColumn (cell8Df Xn yn) "target").rows),
       interleaved (sendEvents score (dropColumn (cell19 (cell15Df Xn yn Xd yd) s1 s2) "target").rows),
       invokePayloads (sendEvents score (dropColumn (cell19 (cell15Df Xn yn Xd yd) s1 s2) "target").rows)) = _
  rw [interleaved_sendEvents, interleaved_sendEvents, invokePayloads_sendEvents,
    invokePayloads_sendEvents]

theorem sendRowsE_error (e : String) (r : Row) (rest : List Row) :
    sendRowsE (fun _ => .error e) (r :: rest) = .error e := rfl

/-- C6 counterexample.  With no bucket matching the prefix, the
notebook does not halt with an unhandled client exception at the lookup:
`next(..., None)` substitutes the default `None`, and (all later calls
succeeding) the run completes, carrying the invalid bucket name into the
schedule's output location. -/
theorem c6_counterexample_missing_bucket_defaulted :
    pickBucket ["some-other-bucket"] = none
      ∧ (runNotebook (pureOracles ["some-other-bucket"] wScore wDescr wObj)
            tinyX tinyY [] [] [0] []).map (fun r => (r.bucket, r.schedArgs.output_s3_uri))
        = .ok (none, "s3://None/monitoring_output") := by
  refine ⟨by decide, ?_⟩
  rw [runNotebook_pure]
  rfl

/-- C6 as amended.  Endpoint faults and baseline-file read faults do
propagate unhandled and halt the notebook (no operation catches or
retries); the absence of a matching bucket, however, does not raise at
the selection step — `next` substitutes its default `None`, and failure
can only surface later, in client calls receiving the invalid name. -/
theorem c6_amended_client_faults_propagate (names : List String) (score : String → ℚ)
    (description : String) (objectBody : String → String → String) (e : String)
    (Xn : List Row) (yn : List Val) (Xd : List Row) (yd : List Val) (s1 s2 : List Nat)
    (hne : (dropColumn (cell8Df Xn yn) "target").rows ≠ []) :
    runNotebook
        { pureOracles names score description objectBody with
            invokeEndpoint := fun _ => .error e } Xn yn Xd yd s1 s2
      = .error e
      ∧ runNotebook
          { pureOracles names score description objectBody with
              s3GetObject := fun _ _ => .error e } Xn yn Xd yd s1 s2
        = .error e := by
  constructor
  · obtain ⟨r, rest, hrows⟩ := List.exists_cons_of_ne_nil hne
    simp [runNotebook, pureOracles, hrows, sendRowsE_error, bind, Except.bind]
  · simp [runNotebook, pureOracles, sendRowsE_pure, bind, Except.bind]

theorem c6_amended_witness :
    (dropColumn (cell8Df tinyX tinyY) "target").rows ≠ []
      ∧ (runNotebook
            { pureOracles wNames wScore wDescr wObj with
                invokeEndpoint := fun _ => .error "fault" } tinyX tinyY [] [] [0] []
          = .error "fault"
          ∧ runNotebook
              { pureOracles wNames wScore wDescr wObj with
                  s3GetObject := fun _ _ => .error "fault" } tinyX tinyY [] [] [0] []
            = .error "fault") :=
  ⟨by decide,
   c6_amended_client_faults_propagate wNames wScore wDescr wObj "fault"
     tinyX tinyY [] [] [0] [] (by decide)⟩

theorem pureRun_trace (names : List String) (score : String → ℚ) (description : String)
    (objectBody : String → String → String) (Xnormal : List Row) (ynormal : List Val)
    (Xdrifted : List Row) (ydrifted : List Val) (s1 s2 : List Nat) :
    (pureRun names score description objectBody Xnormal ynormal Xdrifted ydrifted s1 s2).trace
      = ExtCall.listBuckets
          :: (invokeCallsOf (sendEvents score (dropColumn (cell8Df Xnormal ynormal) "target").rows)
            ++ invokeCallsOf (sendEvents score
                  (dropColumn (cell19 (cell15Df Xnormal ynormal Xdrifted ydrifted) s1 s2) "target").rows)
            ++ [ExtCall.describeEndpoint endpointName,
                ExtCall.s3GetObject (pyStr (pickBucket names)) "baseline_output/statistics.json",
                ExtCall.s3GetObject (pyStr (pickBucket names)) "baseline_output/constraints.json",
                ExtCall.createMonitoringSchedule (cell33Args (pyStr (pickBucket names)))]) := rfl

theorem sampleSize_tenth_20 : sampleSize (1 / 10) 20 = 2 := by
  norm_num [sampleSize]
  rfl

theorem mem_zipWithRow (Xn : List Row) : ∀ (yn : List Val) (r : Row),
    r ∈ List.zipWith (fun x v => x ++ [v]) Xn yn → ∃ x v, x ∈ Xn ∧ v ∈ yn ∧ r = x ++ [v] := by
  induction Xn with
  | nil => intro yn r h; simp at h
  | cons x rest ih =>
      intro yn r h
      cases yn with
      | nil => simp at h
      | cons v yrest =>
          rcases (by simpa using h : r = x ++ [v] ∨ r ∈ List.zipWith (fun x v => x ++ [v]) rest yrest)
            with h1 | h1
          · exact ⟨x, v, by simp, by simp, h1⟩
          · obtain ⟨a, b, ha, hb, he⟩ := ih yrest r h1
            exact ⟨a, b, by simp [ha], by simp [hb], he⟩

theorem invokeCallsOf_filter_put (evs : List Event) :
    (invokeCallsOf evs).filter (fun c => isS3Put c) = [] := by
  induction evs with
  | nil => rfl
  | cons e rest ih => cases e <;> simpa [invokeCallsOf, isS3Put] using ih

theorem invokeCallsOf_filter_sched (evs : List Event) :
    (invokeCallsOf evs).filter (fun c => isCreateSchedule c) = [] := by
  induction evs with
  | nil => rfl
  | cons e rest ih => cases e <;> simpa [invokeCallsOf, isCreateSchedule] using ih

/-- C7.  The notebook never writes to object storage (so neither
baseline document is written or modified): its whole external-call trace
contains no put.  The baseline contents are consumed only by the three
display steps, and the schedule-creation call receives the two baseline
storage locations — strings built from the bucket name alone — not the
fetched contents. -/
theorem c7_baselines_read_only (names : List String) (score : String → ℚ)
    (description : String) (objectBody : String → String → String)
    (Xn : List Row) (yn : List Val) (Xd : List Row) (yd : List Val) (s1 s2 : List Nat) :
    (runNotebook (pureOracles names score description objectBody) Xn yn Xd yd s1 s2).map
        (fun r => (r.trace.filter (fun c => isS3Put c),
                   r.schedArgs.statistics, r.schedArgs.constraints, r.displayed))
      = .ok ([],
             baselineStatisticsUri (pyStr (pickBucket names)),
             baselineConstraintsUri (pyStr (pickBucket names)),
             [description,
              objectBody (pyStr (pickBucket names)) "baseline_output/statistics.json",
              objectBody (pyStr (pickBucket names)) "baseline_output/constraints.json"]) := by
  rw [runNotebook_pure]
  simp only [Except.map]
  refine congrArg Except.ok (Prod.ext ?_ rfl)
  rw [pureRun_trace]
  rw [show ∀ (L : List ExtCall),
        (ExtCall.listBuckets :: L).filter (fun c => isS3Put c)
          = L.filter (fun c => isS3Put c) from fun L => rfl]
  rw [List.filter_append, List.filter_append, invokeCallsOf_filter_put,
    invokeCallsOf_filter_put]
  rfl

/-- C8 counterexample.  The schedule-creation call does not supply
exactly the four spec-named inputs: beyond the endpoint name, output
location, two baseline locations and recurrence expression, it also
passes the keyword argument `enable_cloudwatch_metrics`. -/
theorem c8_counterexample_extra_kwarg :
    cell33KwargNames ≠ specNamedKwargs
      ∧ "enable_cloudwatch_metrics" ∈ cell33KwargNames
      ∧ "enable_cloudwatch_metrics" ∉ specNamedKwargs := by decide

/-- C8 as amended.  The single schedule-creation call supplies the four
inputs the spec names — endpoint name `lab-sagemaker-endpoint`, output
location `s3://{bucket}/monitoring_output`, the two baseline document
locations under `baseline_output/`, and the daily cron expression — and
additionally the flag `enable_cloudwatch_metrics=True`; exactly one
schedule-creation call appears in the run's trace. -/
theorem c8_amended_schedule_call (names : List String) (score : String → ℚ)
    (description : String) (objectBody : String → String → String)
    (Xn : List Row) (yn : List Val) (Xd : List Row) (yd : List Val) (s1 s2 : List Nat) :
    (runNotebook (pureOracles names score description objectBody) Xn yn Xd yd s1 s2).map
        (fun r => (r.schedArgs, (r.trace.filter (fun c => isCreateSchedule c)).length))
      = .ok ({ endpoint_input := endpointName
               output_s3_uri := "s3://" ++ pyStr (pickBucket names) ++ "/monitoring_output"
               statistics := baselineStatisticsUri (pyStr (pickBucket names))
               constraints := baselineConstraintsUri (pyStr (pickBucket names))
               schedule_cron_expression := cronDaily
               enable_cloudwatch_metrics := true }, 1) := by
  rw [runNotebook_pure]
  simp only [Except.map]
  refine congrArg Except.ok (Prod.ext rfl ?_)
  rw [pureRun_trace]
  rw [show ∀ (L : List ExtCall),
        (ExtCall.listBuckets :: L).filter (fun c => isCreateSchedule c)
          = L.filter (fun c => isCreateSchedule c) from fun L => rfl]
  rw [List.filter_append, List.filter_append, invokeCallsOf_filter_sched,
    invokeCallsOf_filter_sched]
  rfl

/-- C9.  Under the `make_classification` contract for the parameters
the notebook passes (`n_samples=20`, `n_features=10`, `n_classes=2`),
each of the two prepared DataFrames has columns
`feature_1 .. feature_10, target`, holds exactly the 20 generated rows
in order (none validated or rejected), each row consisting of its 10
feature values followed by a binary label in the target column. -/
theorem c9_dataset_shape (Xn : List Row) (yn : List Val) (Xd : List Row) (yd : List Val)
    (hX : Xn.length = 20) (hr : ∀ r ∈ Xn, r.length = 10)
    (hy : yn.length = 20) (hv : ∀ v ∈ yn, v = Val.num 0 ∨ v = Val.num 1) :
    ∀ df ∈ [cell8Df Xn yn, cell15Df Xn yn Xd yd],
      df.colNames = featureCols ++ ["target"]
        ∧ df.rows = List.zipWith (fun x v => x ++ [v]) Xn yn
        ∧ df.rows.length = 20
        ∧ ∀ r ∈ df.rows, r.length = 11
            ∧ (r.getLast? = some (Val.num 0) ∨ r.getLast? = some (Val.num 1)) := by
  have main : (cell8Df Xn yn).colNames = featureCols ++ ["target"]
      ∧ (cell8Df Xn yn).rows = List.zipWith (fun x v => x ++ [v]) Xn yn
      ∧ (cell8Df Xn yn).rows.length = 20
      ∧ ∀ r ∈ (cell8Df Xn yn).rows, r.length = 11
          ∧ (r.getLast? = some (Val.num 0) ∨ r.getLast? = some (Val.num 1)) := by
    refine ⟨rfl, rfl, ?_, ?_⟩
    · show (List.zipWith (fun x v => x ++ [v]) Xn yn).length = 20
      rw [List.length_zipWith, hX, hy]
      rfl
    · intro r hmem
      obtain ⟨x, v, hx, hv', he⟩ := mem_zipWithRow Xn yn r hmem
      subst he
      refine ⟨by simp [hr x hx], ?_⟩
      rw [List.getLast?_concat]
      rcases hv v hv' with rfl | rfl
      · exact Or.inl rfl
      · exact Or.inr rfl
  intro df hdf
  rcases (by simpa using hdf : df = cell8Df Xn yn ∨ df = cell15Df Xn yn Xd yd) with rfl | rfl
  · exact main
  · exact main

theorem c9_witness :
    (exXnormal.length = 20 ∧ (∀ r ∈ exXnormal, r.length = 10)
        ∧ exYnormal.length = 20 ∧ (∀ v ∈ exYnormal, v = Val.num 0 ∨ v = Val.num 1))
      ∧ ∀ df ∈ [cell8Df exXnormal exYnormal,
                cell15Df exXnormal exYnormal exXdrifted exYdrifted],
          df.colNames = featureCols ++ ["target"]
            ∧ df.rows = List.zipWith (fun x v => x ++ [v]) exXnormal exYnormal
            ∧ df.rows.length = 20
            ∧ ∀ r ∈ df.rows, r.length = 11
                ∧ (r.getLast? = some (Val.num 0) ∨ r.getLast? = some (Val.num 1)) :=
  ⟨⟨by decide, by decide, by decide, by decide⟩,
   c9_dataset_shape exXnormal exYnormal exXdrifted exYdrifted
     (by decide) (by decide) (by decide) (by decide)⟩

/-- C10.  The defect injection touches exactly the sampled cells: with
the two sampled index sets (each of 2 = `round(0.1 * 20)` distinct valid
row positions), `feature_1` of the first set's rows becomes `nan`,
`feature_2` of the second set's rows is multiplied by 10, and every
other cell of the 20-row DataFrame — the whole target column, columns
`feature_3 .. feature_10`, and unsampled rows of `feature_1` and
`feature_2` — is unchanged. -/
theorem c10_injection_frame (df : DataFrame) (s1 s2 : List Nat)
    (hcols : df.colNames = featureCols ++ ["target"])
    (hn : df.rows.length = 20)
    (hr : ∀ r ∈ df.rows, r.length = 11)
    (hs1 : s1.length = sampleSize (1 / 10) 20) (hd1 : s1.Nodup) (hb1 : ∀ i ∈ s1, i < 20)
    (hs2 : s2.length = sampleSize (1 / 10) 20) (hd2 : s2.Nodup) (hb2 : ∀ i ∈ s2, i < 20) :
    sampleSize (1 / 10) 20 = 2
      ∧ s1.length = 2 ∧ s2.length = 2
      ∧ (cell19 df s1 s2).colNames = df.colNames
      ∧ (cell19 df s1 s2).rows.length = 20
      ∧ ∀ i j, cellAt (cell19 df s1 s2) i j
          = if i ∈ s1 ∧ j = 0 then Val.nan
            else if i ∈ s2 ∧ j = 1 then mult10 (cellAt df i j)
            else cellAt df i j := by
  refine ⟨sampleSize_tenth_20, by rw [hs1, sampleSize_tenth_20],
    by rw [hs2, sampleSize_tenth_20], rfl, ?_, ?_⟩
  · show (setRowsFrom _ _ _ 0 (setRowsFrom _ _ _ 0 df.rows)).length = 20
    rw [setRowsFrom_length, setRowsFrom_length, hn]
  · intro i j
    rw [cellAt_cell19 df hcols s1 s2 i j]
    by_cases hi : i < 20
    · have hilt : i < df.rows.length := by omega
      have hrow : ((df.rows[i]?).getD []).length = 11 := by
        rw [List.getElem?_eq_getElem hilt]
        exact hr _ (List.getElem_mem hilt)
      rw [hrow]
      by_cases hj0 : j = 0
      · subst hj0
        by_cases hm1 : i ∈ s1
        · simp [hm1]
        · simp [hm1]
      · by_cases hj1 : j = 1
        · subst hj1
          by_cases hm2 : i ∈ s2
          · simp [hm2, hj0]
          · simp [hm2, hj0]
        · simp [hj0, hj1]
    · have hnone : df.rows[i]? = none := by
        rw [List.getElem?_eq_none]
        omega
      rw [hnone]
      have h1 : ¬(i ∈ s1 ∧ j = 0) := fun h => hi (hb1 i h.1)
      have h2 : ¬(i ∈ s2 ∧ j = 1) := fun h => hi (hb2 i h.1)
      simp [h1, h2]

theorem c10_witness :
    ((cell8Df exXnormal exYnormal).colNames = featureCols ++ ["target"]
        ∧ (cell8Df exXnormal exYnormal).rows.length = 20
        ∧ (∀ r ∈ (cell8Df exXnormal exYnormal).rows, r.length = 11)
        ∧ [0, 1].length = sampleSize (1 / 10) 20 ∧ [0, 1].Nodup
        ∧ (∀ i ∈ [0, 1], i < 20)
        ∧ [1, 2].length = sampleSize (1 / 10) 20 ∧ [1, 2].Nodup
        ∧ (∀ i ∈ [1, 2], i < 20))
      ∧ (sampleSize (1 / 10) 20 = 2
        ∧ List.length [0, 1] = 2 ∧ List.length [1, 2] = 2
        ∧ (cell19 (cell8Df exXnormal exYnormal) [0, 1] [1, 2]).colNames
            = (cell8Df exXnormal exYnormal).colNames
        ∧ (cell19 (cell8Df exXnormal exYnormal) [0, 1] [1, 2]).rows.length = 20
        ∧ ∀ i j, cellAt (cell19 (cell8Df exXnormal exYnormal) [0, 1] [1, 2]) i j
            = if i ∈ [0, 1] ∧ j = 0 then Val.nan
              else if i ∈ [1, 2] ∧ j = 1 then mult10 (cellAt (cell8Df exXnormal exYnormal) i j)
              else cellAt (cell8Df exXnormal exYnormal) i j) :=
  ⟨⟨rfl, by decide, by decide, by rw [sampleSize_tenth_20]; decide, by decide, by decide,
    by rw [sampleSize_tenth_20]; decide, by decide, by decide⟩,
   c10_injection_frame (cell8Df exXnormal exYnormal) [0, 1] [1, 2] rfl (by decide) (by decide)
     (by rw [sampleSize_tenth_20]; decide) (by decide) (by decide)
     (by rw [sampleSize_tenth_20]; decide) (by decide) (by decide)⟩

end Lab
